import Mathlib

/-!
Shallow embedding of the SlideGen job-lifecycle client
(frontend App component plus its API helper module).

The embedding models the component's reactive state as an explicit
record, and each handler or callback of the source as a state-transforming
function.  Network effects (job creation, status polls, report fetches)
are modelled by passing in the outcome the environment would deliver;
issued requests are counted in ghost fields of the state so that claims
about "no network call" and "exactly one fetch attempt" are statable.
Timer resources (the interval created by the polling loop) are modelled
as a list of live timer identifiers together with the stored handle
reference, mirroring the single mutable ref of the source.

Source correspondence (App component):
  stopPolling, pollJobStatus, startPolling, handleSubmit, handleDownload,
  handleReset, plus the render-gating booleans isJobActive, isComplete,
  isFailed, canSubmit.
Source correspondence (API module):
  API_BASE_URL, getDownloadUrl, STATUS_LABELS, isProcessing.
-/

namespace SlideGen

/-- One remediation action of a slide report
(API shape: { type, to_chars? }). -/
structure RenderAction where
  type : String
  to_chars : Option Nat
deriving DecidableEq, Repr

/-- One slide entry of a render report
(API shape: { slide_id, overflow_detected, actions }). -/
structure SlideReport where
  slide_id : String
  overflow_detected : Bool
  actions : List RenderAction
deriving DecidableEq, Repr

/-- The render report returned by GET /jobs/{id}/report. -/
structure RenderReport where
  job_id : String
  slides : List SlideReport
deriving DecidableEq, Repr

/-- A job status snapshot as returned by GET /jobs/{id}.
`progress` is optional to model a response missing the field (JS
undefined) and `error` optional to model null/absent. -/
structure StatusSnapshot where
  job_id : String
  status : String
  progress : Option ℚ
  error : Option String
deriving DecidableEq, Repr

/-- The reactive state of the App component: one field per useState
hook, plus the polling interval ref.  `liveTimers` lists the interval
timers that have been created and not cleared (a cleared handle is
removed); `nextTimer` supplies fresh timer identifiers.  `createCalls`
and `reportFetches` are ghost counters of issued network requests to
the create endpoint and the report endpoint respectively. -/
structure AppState where
  prompt : String
  jobId : Option String
  jobStatus : Option String
  progress : ℚ
  error : Option String
  isSubmitting : Bool
  report : Option RenderReport
  showReport : Bool
  pollingRef : Option Nat
  liveTimers : List Nat
  nextTimer : Nat
  createCalls : Nat
  reportFetches : Nat
deriving DecidableEq, Repr

/-- Initial hook values: useState('') for prompt, null ids, progress 0,
no error, not submitting, no report, pollingRef.current = null. -/
def initialState : AppState :=
  { prompt := ""
  , jobId := none
  , jobStatus := none
  , progress := 0
  , error := none
  , isSubmitting := false
  , report := none
  , showReport := false
  , pollingRef := none
  , liveTimers := []
  , nextTimer := 0
  , createCalls := 0
  , reportFetches := 0 }

/-- Model of String.prototype.trim: drop leading and trailing
whitespace characters. -/
def jsTrim (s : String) : String :=
  String.mk (((s.data.dropWhile Char.isWhitespace).reverse.dropWhile
    Char.isWhitespace).reverse)

/-- JavaScript truthiness of an optional string: null/undefined and the
empty string are falsy. -/
def jsTruthy (s : Option String) : Bool :=
  match s with
  | some v => v ≠ ""
  | none => false

/-- Model of the JS expression `p || 0` where p is an optional number:
yields 0 when the value is absent (undefined/null) or 0, else the value. -/
def jsOrZero (p : Option ℚ) : ℚ :=
  match p with
  | none => 0
  | some v => if v = 0 then 0 else v

/-- Model of the JS expression `s || d` where s is an optional string:
yields the fallback d when s is absent/null or the empty string. -/
def jsStringOr (s : Option String) (d : String) : String :=
  match s with
  | none => d
  | some v => if v = "" then d else v

/-- Backend base URL constant of the API module. -/
def API_BASE_URL : String := "http://localhost:8000"

/-- getDownloadUrl(jobId) of the API module:
the template literal base/jobs/jobId/download. -/
def getDownloadUrl (jobId : String) : String :=
  API_BASE_URL ++ "/jobs/" ++ jobId ++ "/download"

/-- isProcessing(status) of the API module: membership in the four
non-terminal enumerated statuses. -/
def isProcessing (status : String) : Bool :=
  ["queued", "generating", "generating_json", "rendering"].contains status

/-- stopPolling: if the interval ref holds a handle, clearInterval it
(remove it from the live timers) and null the ref; otherwise no-op. -/
def stopPolling (st : AppState) : AppState :=
  match st.pollingRef with
  | some t => { st with liveTimers := st.liveTimers.erase t, pollingRef := none }
  | none => st

/-- Outcome the environment delivers for a report fetch
(getRenderReport resolves with a report, or rejects). -/
inductive ReportFetchOutcome where
  | success (r : RenderReport)
  | failure (msg : String)
deriving DecidableEq, Repr

/-- Outcome the environment delivers for one pollJobStatus invocation:
either getJobStatus resolves with a snapshot (in which case the report
fetch, attempted only in the done branch, would resolve as `rf`), or
getJobStatus itself rejects at the network layer. -/
inductive PollOutcome where
  | ok (snap : StatusSnapshot) (rf : ReportFetchOutcome)
  | transportError (msg : String)
deriving DecidableEq, Repr

/-- pollJobStatus: applies one resolved poll to the state.
On success: setJobStatus(status.status); setProgress(status.progress || 0);
if failed, setError(status.error || fallback) and stopPolling();
else if done, stopPolling(), then attempt the report fetch once,
storing the report on success and swallowing a failure.
On a thrown fetch: setError of a transport-derived message and
stopPolling().  No branch consults or changes jobId. -/
def pollJobStatus (st : AppState) (out : PollOutcome) : AppState :=
  match out with
  | .transportError msg =>
      stopPolling { st with error := some ("Failed to fetch status: " ++ msg) }
  | .ok snap rf =>
      let st1 := { st with jobStatus := some snap.status
                         , progress := jsOrZero snap.progress }
      if snap.status = "failed" then
        stopPolling { st1 with
          error := some (jsStringOr snap.error "Generation failed. Please try again.") }
      else if snap.status = "done" then
        let st2 := stopPolling st1
        match rf with
        | .success r => { st2 with reportFetches := st2.reportFetches + 1
                                 , report := some r }
        | .failure _ => { st2 with reportFetches := st2.reportFetches + 1 }
      else
        st1

/-- startPolling: fires an immediate poll request (a network issuance
whose response arrives later as a PollOutcome event; it mutates no state
synchronously) and then stores a fresh setInterval handle in the ref.
Note the source does NOT clear a previously stored handle first: the old
interval, if any, keeps running but its handle is overwritten. -/
def startPolling (st : AppState) : AppState :=
  { st with liveTimers := st.liveTimers ++ [st.nextTimer]
          , pollingRef := some st.nextTimer
          , nextTimer := st.nextTimer + 1 }

/-- Outcome the environment delivers for createGenerationJob:
resolves with { job_id, status } or rejects with a message. -/
inductive CreateOutcome where
  | success (job_id : String) (status : String)
  | failure (msg : String)
deriving DecidableEq, Repr

/-- handleSubmit: if the trimmed prompt is empty, set the validation
error message and return without any network call.  Otherwise clear all
job state, stopPolling, issue the create request (counted), and on
success store job_id/status and startPolling; on failure set a
creation-error message.  Either way isSubmitting ends false. -/
def handleSubmit (st : AppState) (res : CreateOutcome) : AppState :=
  if jsTrim st.prompt = "" then
    { st with error := some "Please enter a description for your presentation." }
  else
    let st1 := stopPolling { st with
      isSubmitting := true
      , error := none
      , jobId := none
      , jobStatus := none
      , progress := 0
      , report := none
      , showReport := false }
    let st2 := { st1 with createCalls := st1.createCalls + 1 }
    match res with
    | .success jid status =>
        let st3 := startPolling { st2 with jobId := some jid
                                         , jobStatus := some status }
        { st3 with isSubmitting := false }
    | .failure msg =>
        { st2 with error := some ("Failed to create job: " ++ msg)
                 , isSubmitting := false }

/-- handleDownload: if (jobId) { downloadPptx(jobId) } — triggers a
browser download of getDownloadUrl(jobId) whenever the job id is truthy,
regardless of status; returns the URL navigated to, or none for the
no-op case.  The component state is not mutated. -/
def handleDownload (st : AppState) : Option String :=
  match st.jobId with
  | some jid => if jid = "" then none else some (getDownloadUrl jid)
  | none => none

/-- handleReset: clears prompt, job fields, progress, error, report and
the report toggle, then stopPolling. -/
def handleReset (st : AppState) : AppState :=
  stopPolling { st with
    prompt := ""
    , jobId := none
    , jobStatus := none
    , progress := 0
    , error := none
    , report := none
    , showReport := false }

/-- Render gate isComplete: jobStatus === 'done'. -/
def isComplete (st : AppState) : Bool :=
  st.jobStatus == some "done"

/-- Render gate isFailed: jobStatus === 'failed'. -/
def isFailed (st : AppState) : Bool :=
  st.jobStatus == some "failed"

/-- Render gate isJobActive: jobId && isProcessing(jobStatus); a null
status is not in the processing list. -/
def isJobActive (st : AppState) : Bool :=
  jsTruthy st.jobId &&
    (match st.jobStatus with
     | some s => isProcessing s
     | none => false)

/-- Whether the download button is rendered: the status section needs a
truthy jobId and the download block needs isComplete. -/
def downloadButtonRendered (st : AppState) : Bool :=
  jsTruthy st.jobId && isComplete st

/-- Whether any error text is visible in the UI: inside the status
section the error line is gated on isFailed && error, and the bottom
banner on error && !jobId. -/
def errorVisible (st : AppState) : Bool :=
  (jsTruthy st.jobId && isFailed st && jsTruthy st.error) ||
  (jsTruthy st.error && !jsTruthy st.jobId)

/-- User-observable events of the component, each carrying the outcome
the environment delivers for the network requests the handler issues.
A pollResponse event is the resolution of an in-flight getJobStatus
request: the source applies it unconditionally (there is no session or
staleness guard), so the step function applies pollJobStatus at any
state. -/
inductive Event where
  | submit (res : CreateOutcome)
  | pollResponse (out : PollOutcome)
  | reset
deriving DecidableEq, Repr

/-- One event-loop step of the component. -/
def step (st : AppState) (e : Event) : AppState :=
  match e with
  | .submit res => handleSubmit st res
  | .pollResponse out => pollJobStatus st out
  | .reset => handleReset st

/-- Run a sequence of events from a state. -/
def run (st : AppState) (es : List Event) : AppState :=
  es.foldl step st

/-- The timer-resource invariant the spec intends: the stored interval
handle is the unique live interval (or no interval is live when the ref
is null). -/
def timerInvariant (st : AppState) : Prop :=
  st.liveTimers = st.pollingRef.toList

/-- stopPolling always leaves the ref null. -/
@[simp] theorem stopPolling_pollingRef (s : AppState) :
    (stopPolling s).pollingRef = none := by
  unfold stopPolling
  cases hp : s.pollingRef <;> simp [hp]

/-- stopPolling does not touch the job status. -/
@[simp] theorem stopPolling_jobStatus (s : AppState) :
    (stopPolling s).jobStatus = s.jobStatus := by
  unfold stopPolling
  cases hp : s.pollingRef <;> simp [hp]

/-- stopPolling does not touch the stored error. -/
@[simp] theorem stopPolling_error (s : AppState) :
    (stopPolling s).error = s.error := by
  unfold stopPolling
  cases hp : s.pollingRef <;> simp [hp]

/-- stopPolling does not touch the stored progress. -/
@[simp] theorem stopPolling_progress (s : AppState) :
    (stopPolling s).progress = s.progress := by
  unfold stopPolling
  cases hp : s.pollingRef <;> simp [hp]

/-- stopPolling does not touch the stored report. -/
@[simp] theorem stopPolling_report (s : AppState) :
    (stopPolling s).report = s.report := by
  unfold stopPolling
  cases hp : s.pollingRef <;> simp [hp]

/-- stopPolling issues no report fetch. -/
@[simp] theorem stopPolling_reportFetches (s : AppState) :
    (stopPolling s).reportFetches = s.reportFetches := by
  unfold stopPolling
  cases hp : s.pollingRef <;> simp [hp]

/-- stopPolling issues no create call. -/
@[simp] theorem stopPolling_createCalls (s : AppState) :
    (stopPolling s).createCalls = s.createCalls := by
  unfold stopPolling
  cases hp : s.pollingRef <;> simp [hp]

/-- stopPolling does not touch the job id. -/
@[simp] theorem stopPolling_jobId (s : AppState) :
    (stopPolling s).jobId = s.jobId := by
  unfold stopPolling
  cases hp : s.pollingRef <;> simp [hp]

/-- Under the timer invariant, stopPolling clears the live-timer list. -/
theorem stopPolling_liveTimers_of_timerInvariant (s : AppState)
    (hs : timerInvariant s) : (stopPolling s).liveTimers = [] := by
  unfold timerInvariant at hs
  unfold stopPolling
  cases hp : s.pollingRef <;> simp [hp] <;> rw [hp] at hs <;> simp_all

/-- C7: for every prompt that is empty or whitespace-only after
trimming, handleSubmit only records the validation-error message: the
rest of the state is untouched, so in particular no create request is
issued (the createCalls counter is unchanged) and no polling starts
(the interval ref and the live timers are unchanged). -/
theorem submit_empty_prompt_validation (st : AppState) (res : CreateOutcome)
    (h : jsTrim st.prompt = "") :
    handleSubmit st res
        = { st with error := some "Please enter a description for your presentation." } ∧
    (handleSubmit st res).createCalls = st.createCalls ∧
    (handleSubmit st res).pollingRef = st.pollingRef ∧
    (handleSubmit st res).liveTimers = st.liveTimers := by
  unfold handleSubmit
  simp [h]

/-- C7 witness: a whitespace-only prompt is rejected with the
validation message and without any network call or polling. -/
theorem submit_empty_prompt_validation_witness :
    handleSubmit { initialState with prompt := "  \t " } (CreateOutcome.success "j1" "queued")
      = { initialState with
          prompt := "  \t ",
          error := some "Please enter a description for your presentation." } :=
  (submit_empty_prompt_validation { initialState with prompt := "  \t " }
    (CreateOutcome.success "j1" "queued") (by decide)).1

/-- C8: stopPolling is idempotent, and calling it when no interval is
stored is a no-op on the whole state. -/
theorem stopPolling_idempotent (st : AppState) :
    stopPolling (stopPolling st) = stopPolling st ∧
    (st.pollingRef = none → stopPolling st = st) := by
  cases hp : st.pollingRef <;> simp [stopPolling, hp]

/-- C8 witness: stopping at the initial (not-polling) state changes
nothing, and a second stop equals a single stop. -/
theorem stopPolling_idempotent_witness :
    stopPolling initialState = initialState ∧
    stopPolling (stopPolling initialState) = stopPolling initialState :=
  ⟨(stopPolling_idempotent initialState).2 rfl, (stopPolling_idempotent initialState).1⟩

/-- C9: a snapshot whose status is neither done nor failed (including
strings outside the enumerated set) only updates the stored status and
progress: polling continues (ref and timers untouched), no error is
recorded, no report fetch is issued, and the update is total (no
crash). -/
theorem unknown_status_snapshot_lenient (st : AppState) (snap : StatusSnapshot)
    (rf : ReportFetchOutcome) (h1 : snap.status ≠ "failed") (h2 : snap.status ≠ "done") :
    pollJobStatus st (PollOutcome.ok snap rf)
        = { st with jobStatus := some snap.status, progress := jsOrZero snap.progress } ∧
    (pollJobStatus st (PollOutcome.ok snap rf)).pollingRef = st.pollingRef ∧
    (pollJobStatus st (PollOutcome.ok snap rf)).liveTimers = st.liveTimers ∧
    (pollJobStatus st (PollOutcome.ok snap rf)).error = st.error ∧
    (pollJobStatus st (PollOutcome.ok snap rf)).reportFetches = st.reportFetches := by
  unfold pollJobStatus
  simp [h1, h2]

/-- C9 witness: an unanticipated status string is stored verbatim with
its progress and nothing else changes. -/
theorem unknown_status_snapshot_lenient_witness :
    pollJobStatus initialState
        (PollOutcome.ok ⟨"j1", "mystery_state", some (mkRat 7 10), none⟩
          (ReportFetchOutcome.failure "x"))
      = { initialState with
          jobStatus := some "mystery_state",
          progress := jsOrZero (some (mkRat 7 10)) } :=
  (unknown_status_snapshot_lenient initialState
    ⟨"j1", "mystery_state", some (mkRat 7 10), none⟩
    (ReportFetchOutcome.failure "x") (by decide) (by decide)).1

/-- C10: every successfully applied snapshot stores progress as the JS
value of progress-or-zero: the snapshot value when truthy, 0 when the
field is absent or 0 — never undefined, and able to reset a previously
higher stored progress to 0. -/
theorem progress_or_zero (st : AppState) (snap : StatusSnapshot)
    (rf : ReportFetchOutcome) :
    (pollJobStatus st (PollOutcome.ok snap rf)).progress = jsOrZero snap.progress ∧
    jsOrZero none = 0 ∧ jsOrZero (some 0) = 0 ∧
    ∀ q : ℚ, q ≠ 0 → jsOrZero (some q) = q := by
  refine ⟨?_, rfl, by simp [jsOrZero], ?_⟩
  · simp only [pollJobStatus]
    split
    · simp
    · split
      · cases rf <;> simp
      · rfl
  · intro q hq
    simp [jsOrZero, hq]

/-- C10 witness: a snapshot without a progress field resets a stored
progress of 4/5 to 0, and a nonzero progress value is stored as is. -/
theorem progress_or_zero_witness :
    (pollJobStatus { initialState with progress := mkRat 4 5 }
        (PollOutcome.ok ⟨"j1", "generating", none, none⟩
          (ReportFetchOutcome.failure "x"))).progress = jsOrZero none ∧
    jsOrZero (some (mkRat 7 10)) = mkRat 7 10 :=
  ⟨(progress_or_zero { initialState with progress := mkRat 4 5 }
      ⟨"j1", "generating", none, none⟩ (ReportFetchOutcome.failure "x")).1,
   (progress_or_zero initialState ⟨"j1", "generating", none, none⟩
      (ReportFetchOutcome.failure "x")).2.2.2 (mkRat 7 10) (by decide)⟩

/-- C4 counterexample: with a job id present and status generating,
handleDownload is not a no-op — it triggers the download URL, refuting
the claim that the operation is a no-op whenever status is not done. -/
theorem download_while_generating_not_noop :
    handleDownload { initialState with jobId := some "j1", jobStatus := some "generating" }
        = some "http://localhost:8000/jobs/j1/download" ∧
    some "http://localhost:8000/jobs/j1/download" ≠ (none : Option String) := by
  constructor
  · rfl
  · intro h
    cases h

/-- C4 amended: handleDownload checks only the job id, not the status:
with a truthy job id it always produces the URL base/jobs/id/download;
it is a no-op exactly when the job id is absent or empty.  The status
gate exists only in the rendering layer: the download button is shown
only when a truthy job id is present and status is done, and in that
rendered state the produced URL is the deterministic one. -/
theorem handleDownload_url_and_gating (st : AppState) :
    (∀ j, st.jobId = some j → j ≠ "" →
        handleDownload st = some (getDownloadUrl j)) ∧
    (st.jobId = none ∨ st.jobId = some "" → handleDownload st = none) ∧
    (downloadButtonRendered st = true →
        ∃ j, st.jobId = some j ∧ st.jobStatus = some "done" ∧
          handleDownload st = some (getDownloadUrl j)) := by
  refine ⟨?_, ?_, ?_⟩
  · intro j hj hne
    simp [handleDownload, hj, hne]
  · intro h
    rcases h with h | h <;> simp [handleDownload, h]
  · intro h
    unfold downloadButtonRendered jsTruthy isComplete at h
    cases hj : st.jobId with
    | none => rw [hj] at h; simp at h
    | some j =>
        rw [hj] at h
        simp only [Bool.and_eq_true, decide_eq_true_eq, beq_iff_eq] at h
        refine ⟨j, rfl, h.2, ?_⟩
        simp [handleDownload, hj, h.1]

/-- C4 amended witness: in the done state with job id j1 the produced
URL is getDownloadUrl j1. -/
theorem handleDownload_url_and_gating_witness :
    handleDownload { initialState with jobId := some "j1", jobStatus := some "done" }
      = some (getDownloadUrl "j1") :=
  (handleDownload_url_and_gating
    { initialState with jobId := some "j1", jobStatus := some "done" }).1
    "j1" rfl (by decide)

/-- C5: applying a snapshot with status done stops polling (the ref is
cleared) and issues exactly one report fetch (the counter increments by
one, for either fetch outcome); when the report fetch fails, the stored
status is still done, the stored error is unchanged (no error recorded)
and the stored report is unchanged — the failure is swallowed. -/
theorem done_snapshot_single_report_fetch (st : AppState) (snap : StatusSnapshot)
    (rf : ReportFetchOutcome) (hdone : snap.status = "done") :
    (pollJobStatus st (PollOutcome.ok snap rf)).pollingRef = none ∧
    (pollJobStatus st (PollOutcome.ok snap rf)).reportFetches = st.reportFetches + 1 ∧
    (pollJobStatus st (PollOutcome.ok snap rf)).jobStatus = some "done" ∧
    (∀ msg, rf = ReportFetchOutcome.failure msg →
        (pollJobStatus st (PollOutcome.ok snap rf)).error = st.error ∧
        (pollJobStatus st (PollOutcome.ok snap rf)).report = st.report) := by
  simp only [pollJobStatus, hdone]
  cases rf <;> simp

/-- C5 witness: a done snapshot whose report fetch rejects still counts
one fetch attempt, clears the interval ref, keeps status done and
records no error. -/
theorem done_snapshot_single_report_fetch_witness :
    (pollJobStatus initialState
        (PollOutcome.ok ⟨"j1", "done", some 1, none⟩
          (ReportFetchOutcome.failure "boom"))).reportFetches
        = initialState.reportFetches + 1 ∧
    (pollJobStatus initialState
        (PollOutcome.ok ⟨"j1", "done", some 1, none⟩
          (ReportFetchOutcome.failure "boom"))).pollingRef = none ∧
    (pollJobStatus initialState
        (PollOutcome.ok ⟨"j1", "done", some 1, none⟩
          (ReportFetchOutcome.failure "boom"))).jobStatus = some "done" ∧
    (pollJobStatus initialState
        (PollOutcome.ok ⟨"j1", "done", some 1, none⟩
          (ReportFetchOutcome.failure "boom"))).error = initialState.error :=
  ⟨(done_snapshot_single_report_fetch initialState ⟨"j1", "done", some 1, none⟩
      (ReportFetchOutcome.failure "boom") rfl).2.1,
   (done_snapshot_single_report_fetch initialState ⟨"j1", "done", some 1, none⟩
      (ReportFetchOutcome.failure "boom") rfl).1,
   (done_snapshot_single_report_fetch initialState ⟨"j1", "done", some 1, none⟩
      (ReportFetchOutcome.failure "boom") rfl).2.2.1,
   ((done_snapshot_single_report_fetch initialState ⟨"j1", "done", some 1, none⟩
      (ReportFetchOutcome.failure "boom") rfl).2.2.2 "boom" rfl).1⟩

/-- C6 counterexample: a failed snapshot whose error field is present
but the empty string records the generic fallback message, not the
field's value — refuting the claim that the fallback is used only when
the field is absent or null. -/
theorem failed_snapshot_empty_error_uses_fallback :
    (pollJobStatus initialState
        (PollOutcome.ok ⟨"j1", "failed", some 1, some ""⟩
          (ReportFetchOutcome.failure "x"))).error
        = some "Generation failed. Please try again." ∧
    ("Generation failed. Please try again." : String) ≠ "" := by
  constructor
  · rfl
  · decide

/-- C6 amended: a failed snapshot records the snapshot's error when it
is a nonempty string, and the generic fallback when the field is
absent, null, or the empty string (any falsy value); polling stops and
no report fetch is issued. -/
theorem failed_snapshot_error_and_stop (st : AppState) (snap : StatusSnapshot)
    (rf : ReportFetchOutcome) (hf : snap.status = "failed") :
    (pollJobStatus st (PollOutcome.ok snap rf)).error
        = some (jsStringOr snap.error "Generation failed. Please try again.") ∧
    (pollJobStatus st (PollOutcome.ok snap rf)).pollingRef = none ∧
    (pollJobStatus st (PollOutcome.ok snap rf)).reportFetches = st.reportFetches ∧
    (pollJobStatus st (PollOutcome.ok snap rf)).jobStatus = some "failed" ∧
    (∀ e, snap.error = some e → e ≠ "" →
        (pollJobStatus st (PollOutcome.ok snap rf)).error = some e) ∧
    (snap.error = none ∨ snap.error = some "" →
        (pollJobStatus st (PollOutcome.ok snap rf)).error
          = some "Generation failed. Please try again.") := by
  simp only [pollJobStatus, hf]
  refine ⟨by simp, by simp, by simp, by simp, ?_, ?_⟩
  · intro e he hne
    simp [jsStringOr, he, hne]
  · intro h
    rcases h with h | h <;> simp [jsStringOr, h]

/-- C6 amended witness: a failed snapshot carrying the error "template
not found" surfaces exactly that message with polling stopped and no
report requested. -/
theorem failed_snapshot_error_and_stop_witness :
    (pollJobStatus initialState
        (PollOutcome.ok ⟨"j1", "failed", some 1, some "template not found"⟩
          (ReportFetchOutcome.failure "x"))).error = some "template not found" ∧
    (pollJobStatus initialState
        (PollOutcome.ok ⟨"j1", "failed", some 1, some "template not found"⟩
          (ReportFetchOutcome.failure "x"))).pollingRef = none ∧
    (pollJobStatus initialState
        (PollOutcome.ok ⟨"j1", "failed", some 1, some "template not found"⟩
          (ReportFetchOutcome.failure "x"))).reportFetches
        = initialState.reportFetches :=
  ⟨(failed_snapshot_error_and_stop initialState
      ⟨"j1", "failed", some 1, some "template not found"⟩
      (ReportFetchOutcome.failure "x") rfl).2.2.2.2.1 "template not found" rfl (by decide),
   (failed_snapshot_error_and_stop initialState
      ⟨"j1", "failed", some 1, some "template not found"⟩
      (ReportFetchOutcome.failure "x") rfl).2.1,
   (failed_snapshot_error_and_stop initialState
      ⟨"j1", "failed", some 1, some "template not found"⟩
      (ReportFetchOutcome.failure "x") rfl).2.2.1⟩

/-- C1: evaluation at the failing input.  A poll whose fetch throws at
the network layer makes the component record the transport-derived
message and stop polling, but the stored job status is left at its
prior value (here generating) and is never set to failed; since the
status-section error line is rendered only when status is failed, the
recorded message is not even visible. -/
theorem poll_transport_error_does_not_mark_failed :
    (run { initialState with prompt := "Intro to AI, 5 slides" }
        [Event.submit (CreateOutcome.success "j1" "queued"),
         Event.pollResponse (PollOutcome.ok ⟨"j1", "generating", some (mkRat 1 5), none⟩
           (ReportFetchOutcome.failure "x")),
         Event.pollResponse (PollOutcome.transportError "connection refused")]).error
        = some "Failed to fetch status: connection refused" ∧
    (let st := run { initialState with prompt := "Intro to AI, 5 slides" }
        [Event.submit (CreateOutcome.success "j1" "queued"),
         Event.pollResponse (PollOutcome.ok ⟨"j1", "generating", some (mkRat 1 5), none⟩
           (ReportFetchOutcome.failure "x")),
         Event.pollResponse (PollOutcome.transportError "connection refused")]
     st.pollingRef = none ∧
       st.jobStatus = some "generating" ∧
       isFailed st = false ∧
       errorVisible st = false) := by
  decide

/-- C2: evaluation at the failing input.  reset during an in-flight
poll clears the state, but the component has no session guard: when
the late response resolves, pollJobStatus applies it unconditionally,
overwriting status and progress, so the state is not left cleared at
idle (while jobId stays null, leaving an inconsistent pair). -/
theorem late_poll_response_after_reset_mutates_state :
    (run { initialState with prompt := "Intro to AI, 5 slides" }
        [Event.submit (CreateOutcome.success "j1" "queued"), Event.reset]).jobStatus
        = none ∧
    (let st := run { initialState with prompt := "Intro to AI, 5 slides" }
        [Event.submit (CreateOutcome.success "j1" "queued"),
         Event.reset,
         Event.pollResponse (PollOutcome.ok ⟨"j1", "generating", some (mkRat 1 2), none⟩
           (ReportFetchOutcome.failure "x"))]
     st.jobStatus = some "generating" ∧ st.progress = mkRat 1 2 ∧ st.jobId = none ∧
       ¬(st.jobStatus = none ∧ st.progress = 0)) := by
  decide

/-- C3 counterexample: startPolling invoked while an interval is
already live does not stop the prior stream: it creates a second live
interval and overwrites the stored handle, breaking the at-most-one-
live-interval invariant. -/
theorem startPolling_leaks_prior_interval :
    (startPolling (startPolling initialState)).liveTimers.length = 2 ∧
    ¬ timerInvariant (startPolling (startPolling initialState)) := by
  refine ⟨by decide, fun hInv => ?_⟩
  have hne : ¬ ((startPolling (startPolling initialState)).liveTimers
      = (startPolling (startPolling initialState)).pollingRef.toList) := by decide
  exact hne hInv

/-- C3 amended: startPolling itself does not stop a prior stream, but
its only caller runs stopPolling before it starts a new interval, so
every event-loop step preserves the invariant that the stored handle is
the unique live interval: at most one interval is live at any time in
any reachable state. -/
theorem step_preserves_timerInvariant (st : AppState) (e : Event)
    (h : timerInvariant st) : timerInvariant (step st e) := by
  have hstop : ∀ s : AppState, timerInvariant s → timerInvariant (stopPolling s) := by
    intro s hs
    unfold timerInvariant
    rw [stopPolling_pollingRef, stopPolling_liveTimers_of_timerInvariant s hs]
    rfl
  cases e with
  | reset =>
      exact hstop _ h
  | submit res =>
      show timerInvariant (handleSubmit st res)
      unfold handleSubmit
      split
      · exact h
      · cases res with
        | success jid status =>
            unfold timerInvariant startPolling
            dsimp only
            rw [stopPolling_liveTimers_of_timerInvariant
              { st with
                isSubmitting := true, error := none, jobId := none,
                jobStatus := none, progress := 0, report := none,
                showReport := false } h]
            rfl
        | failure msg =>
            exact hstop _ h
  | pollResponse out =>
      show timerInvariant (pollJobStatus st out)
      cases out with
      | transportError msg =>
          exact hstop _ h
      | ok snap rf =>
          unfold pollJobStatus
          dsimp only
          split
          · exact hstop _ h
          · split
            · cases rf with
              | success r => exact hstop _ h
              | failure msg => exact hstop _ h
            · exact h

/-- C3 amended witness: the invariant holds initially and is preserved
by a submit step (the path through stopPolling and startPolling). -/
theorem step_preserves_timerInvariant_witness :
    timerInvariant initialState ∧
    timerInvariant (step initialState (Event.submit (CreateOutcome.success "j1" "queued"))) :=
  ⟨rfl, step_preserves_timerInvariant initialState
    (Event.submit (CreateOutcome.success "j1" "queued")) rfl⟩

end SlideGen
